import Mathlib

/-!
Shallow embedding of the LeverageGuard claims/payout contract
(src/contracts/leverageguard/LeverageGuardV2.sol, the latest revision;
LeverageGuard.sol is the earlier revision of the same engine).

Conventions of the embedding:
* uint256 values are Nat; Solidity 0.8 checked arithmetic reverts on
  overflow/underflow, modelled by explicit bound checks returning an error.
* Solidity mappings are association lists read through total lookup
  functions that return the mapping default on a missing key, matching
  EVM storage semantics (orderIdToIndex defaults to 0, structs to zeroes).
* A reverted call is an Except.error result: the caller keeps the original
  state, which models atomic rollback of the whole transaction.
* The external fund transfer (low-level call) is modelled by a boolean
  argument transferOk; a failed transfer reverts the whole operation.
-/

namespace LeverageGuard

/-- The 2^256 bound of uint256 arithmetic. -/
def UINT256 : Nat := 2 ^ 256

/-- Error kinds of the engine, one per require/revert site (names follow
the specification; AlreadyPaidError is listed by the specification but,
as the theorems below show, is never produced by the code). -/
inductive Err where
  | AuthorizationError
  | DuplicateClaimError
  | InvalidParameterError
  | NotFoundError
  | NotVerifiedError
  | AlreadyPaidError
  | InsufficientBalanceError
  | ReentrancyError
  | PausedError
  | OverflowError
  | TransferFailedError
  | InvalidPayoutAmountError
deriving DecidableEq

/-- struct PayoutRecord { orderId; amount; timestamp; verified } -/
structure PayoutRecord where
  orderId : Nat
  amount : Nat
  timestamp : Nat
  verified : Bool
deriving DecidableEq

/-- struct UserPayouts { PayoutRecord[] records; mapping(uint256 => uint256) orderIdToIndex } -/
structure UserPayouts where
  records : List PayoutRecord
  orderIdToIndex : List (Nat × Nat)
deriving DecidableEq

/-- The contract storage of LeverageGuardV2. -/
structure State where
  owner : Nat
  liquidationThreshold : Nat
  feePercentage : Nat
  whitelisted : List Nat
  blacklisted : List Nat
  contractBalance : Nat
  locked : Bool
  paused : Bool
  multiSigWallets : List Nat
  minSignatures : Nat
  userPayouts : List (Nat × UserPayouts)
  claimedOrders : List (Nat × Nat)
deriving DecidableEq

/-- Equality of call results is decidable, so concrete executions can be
settled by evaluation. -/
instance : DecidableEq (Except Err State) := fun a b =>
  match a, b with
  | .ok x, .ok y =>
    if h : x = y then .isTrue (by rw [h]) else .isFalse (by intro hc; cases hc; exact h rfl)
  | .error x, .error y =>
    if h : x = y then .isTrue (by rw [h]) else .isFalse (by intro hc; cases hc; exact h rfl)
  | .ok _, .error _ => .isFalse (by intro hc; cases hc)
  | .error _, .ok _ => .isFalse (by intro hc; cases hc)

/-- Membership test for an address set (whitelist, blacklist, multisig roster). -/
def memberList : List Nat → Nat → Bool
  | [], _ => false
  | a :: t, x => if a = x then true else memberList t x

/-- mapping(address => mapping(uint256 => bool)) claimedOrders, read as a set
of (user, orderId) pairs that were flagged true. -/
def claimedContains : List (Nat × Nat) → Nat → Nat → Bool
  | [], _, _ => false
  | p :: t, u, oid => if p.1 = u ∧ p.2 = oid then true else claimedContains t u oid

/-- mapping(uint256 => uint256) lookup with the EVM default 0. -/
def lookupIdx : List (Nat × Nat) → Nat → Nat
  | [], _ => 0
  | p :: t, k => if p.1 = k then p.2 else lookupIdx t k

/-- The all-zero UserPayouts value, the EVM default for an absent key. -/
def emptyUP : UserPayouts :=
  { records := [], orderIdToIndex := [] }

/-- mapping(address => UserPayouts) lookup with the EVM default. -/
def lookupUser : List (Nat × UserPayouts) → Nat → UserPayouts
  | [], _ => emptyUP
  | p :: t, a => if p.1 = a then p.2 else lookupUser t a

/-- Write a key of the userPayouts mapping. -/
def setUser (m : List (Nat × UserPayouts)) (a : Nat) (v : UserPayouts) :
    List (Nat × UserPayouts) :=
  (a, v) :: m

/-- The zero PayoutRecord (EVM default for an out-of-range read never taken
by the guarded code paths). -/
def zeroRec : PayoutRecord :=
  { orderId := 0, amount := 0, timestamp := 0, verified := false }

/-- Array indexing userPayouts[user].records[i] with the zero default. -/
def getRec : List PayoutRecord → Nat → PayoutRecord
  | [], _ => zeroRec
  | a :: _, 0 => a
  | _ :: t, Nat.succ n => getRec t n

/-- userPayouts[user].records -/
def userRecords (s : State) (user : Nat) : List PayoutRecord :=
  (lookupUser s.userPayouts user).records

/-- userPayouts[user].orderIdToIndex[orderId] -/
def recordIndex (s : State) (user orderId : Nat) : Nat :=
  lookupIdx (lookupUser s.userPayouts user).orderIdToIndex orderId

/-- userPayouts[user].records[orderIdToIndex[orderId]], the record every
guarded operation addresses after its bounds/match checks. -/
def theRecord (s : State) (user orderId : Nat) : PayoutRecord :=
  getRec (userRecords s user) (recordIndex s user orderId)

/-- The net amount a successful executePayout moves out of the ledger:
payoutCap minus fee = payoutCap * feePercentage / 100 (truncating). -/
def netAmount (s : State) (user orderId : Nat) : Nat :=
  (theRecord s user orderId).amount -
    (theRecord s user orderId).amount * s.feePercentage / 100

/-- function submitClaim(orderId, principal, leverage, insuranceRate)
external whitelistedOnly noReentrant whenNotPaused, with block.timestamp
passed as ts. Checks follow the modifier and require order of the source. -/
def submitClaim (sender orderId principal leverage insuranceRate ts : Nat)
    (s : State) : Except Err State :=
  if memberList s.whitelisted sender = false then .error .AuthorizationError
  else if memberList s.blacklisted sender = true then .error .AuthorizationError
  else if s.locked = true then .error .ReentrancyError
  else if s.paused = true then .error .PausedError
  else if claimedContains s.claimedOrders sender orderId = true then
    .error .DuplicateClaimError
  else if principal = 0 then .error .InvalidParameterError
  else if leverage ≤ s.liquidationThreshold then .error .InvalidParameterError
  else if insuranceRate = 0 then .error .InvalidParameterError
  else if 100 < insuranceRate then .error .InvalidParameterError
  else if UINT256 ≤ principal * insuranceRate * (leverage - s.liquidationThreshold) then
    .error .OverflowError
  else
    .ok { s with
      claimedOrders := (sender, orderId) :: s.claimedOrders,
      userPayouts := setUser s.userPayouts sender
        { records := userRecords s sender ++
            [{ orderId := orderId,
               amount := principal * insuranceRate * (leverage - s.liquidationThreshold) / 10000,
               timestamp := ts,
               verified := false }],
          orderIdToIndex :=
            (orderId, (userRecords s sender).length) ::
              (lookupUser s.userPayouts sender).orderIdToIndex } }

/-- function updateVerification(user, orderId, principal, leverage,
insuranceRate, verified) external onlyMultiSig whenNotPaused.
principal and leverage are only echoed into the event in the source, so
they do not affect the resulting state. -/
def updateVerification (sender user orderId principal leverage insuranceRate : Nat)
    (v : Bool) (s : State) : Except Err State :=
  if memberList s.multiSigWallets sender = false then .error .AuthorizationError
  else if s.paused = true then .error .PausedError
  else if claimedContains s.claimedOrders user orderId = false then
    .error .NotFoundError
  else if (userRecords s user).length ≤ recordIndex s user orderId then
    .error .NotFoundError
  else if (theRecord s user orderId).orderId ≠ orderId then .error .NotFoundError
  else if UINT256 ≤ (theRecord s user orderId).amount * insuranceRate then
    .error .OverflowError
  else
    .ok { s with
      userPayouts := setUser s.userPayouts user
        { lookupUser s.userPayouts user with
          records := (userRecords s user).set (recordIndex s user orderId)
            { theRecord s user orderId with
              verified := v,
              amount := (theRecord s user orderId).amount * insuranceRate / 100 } } }

/-- function executePayout(user, orderId) external onlyMultiSig noReentrant
whenNotPaused; transferOk models the success of the external value call.
Note that the source marks nothing as paid: the record and claimedOrders
entry are left exactly as they were, only contractBalance changes. -/
def executePayout (sender user orderId : Nat) (transferOk : Bool)
    (s : State) : Except Err State :=
  if memberList s.multiSigWallets sender = false then .error .AuthorizationError
  else if s.locked = true then .error .ReentrancyError
  else if s.paused = true then .error .PausedError
  else if memberList s.whitelisted user = false then .error .AuthorizationError
  else if memberList s.blacklisted user = true then .error .AuthorizationError
  else if claimedContains s.claimedOrders user orderId = false then
    .error .NotFoundError
  else if (userRecords s user).length ≤ recordIndex s user orderId then
    .error .NotFoundError
  else if (theRecord s user orderId).orderId ≠ orderId then .error .NotFoundError
  else if (theRecord s user orderId).verified = false then .error .NotVerifiedError
  else if (theRecord s user orderId).amount = 0 then .error .InvalidPayoutAmountError
  else if s.contractBalance < (theRecord s user orderId).amount then
    .error .InsufficientBalanceError
  else if UINT256 ≤ (theRecord s user orderId).amount * s.feePercentage then
    .error .OverflowError
  else if (theRecord s user orderId).amount <
      (theRecord s user orderId).amount * s.feePercentage / 100 then
    .error .OverflowError
  else if transferOk = false then .error .TransferFailedError
  else
    .ok { s with contractBalance := s.contractBalance - netAmount s user orderId }

/-- View function getUserPayouts(user): a copy of the records array. -/
def getUserPayoutsQ (s : State) (user : Nat) : List PayoutRecord :=
  (lookupUser s.userPayouts user).records

/-- View function isOrderClaimed(user, orderId). -/
def isOrderClaimedQ (s : State) (user orderId : Nat) : Bool :=
  claimedContains s.claimedOrders user orderId

/-- Whether a call result is a success. -/
def isOkE : Except Err State → Bool
  | .ok _ => true
  | .error _ => false

/-- The state a successful call produces, or the input state on a revert;
used only to name concrete intermediate states of executions. -/
def stepOk (f : State → Except Err State) (s : State) : State :=
  match f s with
  | .ok s1 => s1
  | .error _ => s

/-- One settlement request of a payout sequence. -/
structure PayoutCall where
  sender : Nat
  user : Nat
  orderId : Nat
  transferOk : Bool
deriving DecidableEq

/-- Run a sequence of executePayout calls, stopping at the first revert. -/
def runPayouts : List PayoutCall → State → Except Err State
  | [], s => .ok s
  | c :: cs, s =>
    (executePayout c.sender c.user c.orderId c.transferOk s).bind (runPayouts cs)

/-- The net post-fee amounts of a sequence of settlements, each computed in
the state in which that settlement runs. -/
def netsOf : List PayoutCall → State → List Nat
  | [], _ => []
  | c :: cs, s =>
    netAmount s c.user c.orderId ::
      (match executePayout c.sender c.user c.orderId c.transferOk s with
       | .ok s1 => netsOf cs s1
       | .error _ => [])

/-- A demonstration state: owner 1, threshold 80, fee 5, multisig roster
[2, 3, 4], user 10 whitelisted, ledger 1000, nothing claimed yet. -/
def demoState : State :=
  { owner := 1
    liquidationThreshold := 80
    feePercentage := 5
    whitelisted := [10]
    blacklisted := []
    contractBalance := 1000
    locked := false
    paused := false
    multiSigWallets := [2, 3, 4]
    minSignatures := 3
    userPayouts := []
    claimedOrders := [] }

/-- State after user 10 submits claim 77 (principal 1000, leverage 90, rate 50). -/
def c9s1 : State := stepOk (submitClaim 10 77 1000 90 50 0) demoState

/-- State after multisig wallet 2 verifies claim (10, 77) with rate 50. -/
def c9s2 : State := stepOk (updateVerification 2 10 77 1000 90 50 true) c9s1

/-- State after multisig wallet 2 settles claim (10, 77). -/
def c9s3 : State := stepOk (executePayout 2 10 77 true) c9s2

/-- State after a first successful settlement of the verified claim (10, 77). -/
def c1s1 : State := stepOk (executePayout 2 10 77 true) c9s2

/-- State after a second settlement of the very same claim (10, 77). -/
def c1s2 : State := stepOk (executePayout 2 10 77 true) c1s1

/-- A state holding a verified claim (10, 77) of gross amount 100, fee
percentage 5 (so net transfer 95), and a ledger balance of 97. -/
def c8s : State :=
  { owner := 1
    liquidationThreshold := 80
    feePercentage := 5
    whitelisted := [10]
    blacklisted := []
    contractBalance := 97
    locked := false
    paused := false
    multiSigWallets := [2]
    minSignatures := 1
    userPayouts := [(10,
      { records := [{ orderId := 77, amount := 100, timestamp := 0, verified := true }]
        orderIdToIndex := [(77, 0)] })]
    claimedOrders := [(10, 77)] }

/-- State after user 10 submits claim 88 (principal 4000, leverage 85,
rate 1), stored with estimated amount 2. -/
def c10s0 : State := stepOk (submitClaim 10 88 4000 85 1 0) demoState

/-- State after a first re-verification of claim (10, 88) with rate 99. -/
def c10s1 : State := stepOk (updateVerification 2 10 88 4000 85 99 true) c10s0

/-- State after a second re-verification of claim (10, 88) with rate 99. -/
def c10s2 : State := stepOk (updateVerification 2 10 88 4000 85 99 true) c10s1

/-- State after re-verifying claim (10, 88) with rate 99 and verified set
to false: the amount is rescaled even though the flag is false. -/
def c10w1 : State := stepOk (updateVerification 2 10 88 4000 85 99 false) c10s0

/-- State after a second rate-99 re-verification with verified false. -/
def c10w2 : State := stepOk (updateVerification 2 10 88 4000 85 99 false) c10w1

/-- The verified-claim state c9s2 with the reentrancy flag held. -/
def c6locked : State := { c9s2 with locked := true }

/-- The verified-claim state c9s2 with the pause switch on. -/
def c7paused : State := { c9s2 with paused := true }

/-- A two-settlement sequence, both for claim (10, 77) by multisig wallet 2. -/
def c2calls : List PayoutCall :=
  [{ sender := 2, user := 10, orderId := 77, transferOk := true },
   { sender := 2, user := 10, orderId := 77, transferOk := true }]

example : isOkE (submitClaim 10 77 1000 90 50 0 demoState) = true := by decide

example : (theRecord c9s1 10 77).amount = 50 := by decide

theorem lookupUser_setUser_self (m : List (Nat × UserPayouts)) (a : Nat) (v : UserPayouts) :
    lookupUser (setUser m a v) a = v := by
  simp [setUser, lookupUser]

theorem lookupIdx_cons_self (m : List (Nat × Nat)) (k v : Nat) :
    lookupIdx ((k, v) :: m) k = v := by
  simp [lookupIdx]

theorem getRec_append_self (l : List PayoutRecord) (a : PayoutRecord) :
    getRec (l ++ [a]) l.length = a := by
  induction l with
  | nil => rfl
  | cons x t ih => simpa [getRec] using ih

theorem getRec_set_self (l : List PayoutRecord) (i : Nat) (a : PayoutRecord)
    (h : i < l.length) : getRec (l.set i a) i = a := by
  induction l generalizing i with
  | nil => exact absurd h (Nat.not_lt_zero i)
  | cons x t ih =>
    cases i with
    | zero => rfl
    | succ n => simpa [getRec] using ih n (by simpa using h)

/-- A successful executePayout debits exactly the net post-fee amount, the
net amount fits the prior balance, and the reentrancy flag is restored. -/
theorem exec_ok_balance (sender user orderId : Nat) (t : Bool) (s s1 : State)
    (h : executePayout sender user orderId t s = .ok s1) :
    s1.contractBalance + netAmount s user orderId = s.contractBalance ∧
    netAmount s user orderId ≤ s.contractBalance ∧
    s1.locked = s.locked := by
  unfold executePayout at h
  by_cases g1 : memberList s.multiSigWallets sender = false
  · rw [if_pos g1] at h; exact (Except.noConfusion h)
  rw [if_neg g1] at h
  by_cases g2 : s.locked = true
  · rw [if_pos g2] at h; exact (Except.noConfusion h)
  rw [if_neg g2] at h
  by_cases g3 : s.paused = true
  · rw [if_pos g3] at h; exact (Except.noConfusion h)
  rw [if_neg g3] at h
  by_cases g4 : memberList s.whitelisted user = false
  · rw [if_pos g4] at h; exact (Except.noConfusion h)
  rw [if_neg g4] at h
  by_cases g5 : memberList s.blacklisted user = true
  · rw [if_pos g5] at h; exact (Except.noConfusion h)
  rw [if_neg g5] at h
  by_cases g6 : claimedContains s.claimedOrders user orderId = false
  · rw [if_pos g6] at h; exact (Except.noConfusion h)
  rw [if_neg g6] at h
  by_cases g7 : (userRecords s user).length ≤ recordIndex s user orderId
  · rw [if_pos g7] at h; exact (Except.noConfusion h)
  rw [if_neg g7] at h
  by_cases g8 : (theRecord s user orderId).orderId ≠ orderId
  · rw [if_pos g8] at h; exact (Except.noConfusion h)
  rw [if_neg g8] at h
  by_cases g9 : (theRecord s user orderId).verified = false
  · rw [if_pos g9] at h; exact (Except.noConfusion h)
  rw [if_neg g9] at h
  by_cases g10 : (theRecord s user orderId).amount = 0
  · rw [if_pos g10] at h; exact (Except.noConfusion h)
  rw [if_neg g10] at h
  by_cases g11 : s.contractBalance < (theRecord s user orderId).amount
  · rw [if_pos g11] at h; exact (Except.noConfusion h)
  rw [if_neg g11] at h
  by_cases g12 : UINT256 ≤ (theRecord s user orderId).amount * s.feePercentage
  · rw [if_pos g12] at h; exact (Except.noConfusion h)
  rw [if_neg g12] at h
  by_cases g13 : (theRecord s user orderId).amount <
      (theRecord s user orderId).amount * s.feePercentage / 100
  · rw [if_pos g13] at h; exact (Except.noConfusion h)
  rw [if_neg g13] at h
  by_cases g14 : t = false
  · rw [if_pos g14] at h; exact (Except.noConfusion h)
  rw [if_neg g14] at h
  injection h with h
  subst h
  have hsub : netAmount s user orderId ≤ (theRecord s user orderId).amount :=
    Nat.sub_le _ _
  refine ⟨?_, ?_, rfl⟩
  · show s.contractBalance - netAmount s user orderId + netAmount s user orderId =
      s.contractBalance
    omega
  · show netAmount s user orderId ≤ s.contractBalance
    omega

/-- A successful updateVerification stores currentAmount * rate / 100 and
overwrites the verified flag with the supplied boolean. -/
theorem upd_ok_rescale (sender user orderId principal leverage insuranceRate : Nat)
    (v : Bool) (s s1 : State)
    (h : updateVerification sender user orderId principal leverage insuranceRate v s = .ok s1) :
    (theRecord s1 user orderId).amount =
      (theRecord s user orderId).amount * insuranceRate / 100 ∧
    (theRecord s1 user orderId).verified = v := by
  unfold updateVerification at h
  by_cases g1 : memberList s.multiSigWallets sender = false
  · rw [if_pos g1] at h; exact (Except.noConfusion h)
  rw [if_neg g1] at h
  by_cases g2 : s.paused = true
  · rw [if_pos g2] at h; exact (Except.noConfusion h)
  rw [if_neg g2] at h
  by_cases g3 : claimedContains s.claimedOrders user orderId = false
  · rw [if_pos g3] at h; exact (Except.noConfusion h)
  rw [if_neg g3] at h
  by_cases g4 : (userRecords s user).length ≤ recordIndex s user orderId
  · rw [if_pos g4] at h; exact (Except.noConfusion h)
  rw [if_neg g4] at h
  by_cases g5 : (theRecord s user orderId).orderId ≠ orderId
  · rw [if_pos g5] at h; exact (Except.noConfusion h)
  rw [if_neg g5] at h
  by_cases g6 : UINT256 ≤ (theRecord s user orderId).amount * insuranceRate
  · rw [if_pos g6] at h; exact (Except.noConfusion h)
  rw [if_neg g6] at h
  injection h with h
  subst h
  have hlt : recordIndex s user orderId < (userRecords s user).length :=
    Nat.not_le.mp g4
  simp only [theRecord, userRecords, recordIndex, lookupUser_setUser_self]
  rw [getRec_set_self _ _ _ (by simpa only [userRecords, recordIndex] using hlt)]
  exact ⟨rfl, rfl⟩

/-- Over any all-successful settlement sequence the ledger drops by exactly
the sum of the per-settlement net amounts. -/
theorem runPayouts_balance (cs : List PayoutCall) (s s1 : State)
    (h : runPayouts cs s = .ok s1) :
    s1.contractBalance + (netsOf cs s).sum = s.contractBalance := by
  induction cs generalizing s with
  | nil =>
    simp only [runPayouts] at h
    injection h with h
    subst h
    simp [netsOf]
  | cons c cs ih =>
    rw [runPayouts] at h
    cases hex : executePayout c.sender c.user c.orderId c.transferOk s with
    | error e => rw [hex] at h; simp [Except.bind] at h
    | ok s2 =>
      rw [hex] at h
      simp only [Except.bind] at h
      have hb := exec_ok_balance c.sender c.user c.orderId c.transferOk s s2 hex
      have hi := ih s2 h
      simp only [netsOf, hex, List.sum_cons]
      omega

/-- C2: over any sequence of successful settlements the final ledger balance
plus the sum of the per-settlement net (post-fee) amounts equals the initial
balance (so the final balance is the initial balance minus that sum, and the
sum never exceeds the initial balance: the Nat ledger never underflows);
each single settlement debits exactly its net amount, which fits the
balance it is debited from. -/
theorem c2_sequence_net_balance (cs : List PayoutCall) (s s1 : State)
    (c : PayoutCall) (u u1 : State)
    (hrun : runPayouts cs s = .ok s1)
    (hstep : executePayout c.sender c.user c.orderId c.transferOk u = .ok u1) :
    s1.contractBalance + (netsOf cs s).sum = s.contractBalance ∧
    u1.contractBalance + netAmount u c.user c.orderId = u.contractBalance ∧
    netAmount u c.user c.orderId ≤ u.contractBalance := by
  refine ⟨runPayouts_balance cs s s1 hrun, ?_, ?_⟩
  · exact (exec_ok_balance c.sender c.user c.orderId c.transferOk u u1 hstep).1
  · exact (exec_ok_balance c.sender c.user c.orderId c.transferOk u u1 hstep).2.1

/-- Witness for C2: a concrete two-settlement run from the verified state
c9s2 (balance 1000, two net-24 settlements ending at 952). -/
theorem c2_sequence_net_balance_witness :
    c1s2.contractBalance + (netsOf c2calls c9s2).sum = c9s2.contractBalance ∧
    c1s1.contractBalance + netAmount c9s2 10 77 = c9s2.contractBalance ∧
    netAmount c9s2 10 77 ≤ c9s2.contractBalance :=
  c2_sequence_net_balance c2calls c9s2 c1s2
    { sender := 2, user := 10, orderId := 77, transferOk := true } c9s2 c1s1
    (by decide) (by decide)

/-- C3: a submission that satisfies every precondition stores an estimated
payout of principal * insuranceRate * (leverage - liquidationThreshold)
/ 10000 with truncating division. -/
theorem c3_submit_estimated_payout (sender orderId principal leverage insuranceRate ts : Nat)
    (s s1 : State)
    (hw : memberList s.whitelisted sender = true)
    (hb : memberList s.blacklisted sender = false)
    (hl : s.locked = false)
    (hp : s.paused = false)
    (hd : claimedContains s.claimedOrders sender orderId = false)
    (hpr : 0 < principal)
    (hlev : s.liquidationThreshold < leverage)
    (hr0 : 0 < insuranceRate)
    (hr1 : insuranceRate ≤ 100)
    (hov : principal * insuranceRate * (leverage - s.liquidationThreshold) < UINT256)
    (hok : submitClaim sender orderId principal leverage insuranceRate ts s = .ok s1) :
    (theRecord s1 sender orderId).amount =
      principal * insuranceRate * (leverage - s.liquidationThreshold) / 10000 := by
  unfold submitClaim at hok
  rw [if_neg (by simp [hw]), if_neg (by simp [hb]), if_neg (by simp [hl]),
    if_neg (by simp [hp]), if_neg (by simp [hd]),
    if_neg (Nat.pos_iff_ne_zero.mp hpr), if_neg (Nat.not_le.mpr hlev),
    if_neg (Nat.pos_iff_ne_zero.mp hr0), if_neg (Nat.not_lt.mpr hr1),
    if_neg (Nat.not_le.mpr hov)] at hok
  injection hok with hok
  subst hok
  simp only [theRecord, userRecords, recordIndex, lookupUser_setUser_self,
    lookupIdx_cons_self]
  rw [getRec_append_self]

/-- Witness for C3: the concrete submission of claim (10, 77) stores
1000 * 50 * (90 - 80) / 10000 = 50. -/
theorem c3_submit_estimated_payout_witness :
    (theRecord c9s1 10 77).amount =
      1000 * 50 * (90 - demoState.liquidationThreshold) / 10000 :=
  c3_submit_estimated_payout 10 77 1000 90 50 0 demoState c9s1 (by decide) (by decide)
    (by decide) (by decide) (by decide) (by decide) (by decide) (by decide) (by decide)
    (by decide) (by decide)

/-- C4: a second submitClaim for an (owner, orderId) pair that is already
present fails with DuplicateClaimError and does not succeed, so the stored
record survives untouched (a revert returns the caller to the prior state
in this embedding). The modifier gates (whitelist, blacklist, reentrancy,
pause) run first in the source, hence the gate hypotheses. -/
theorem c4_duplicate_claim_rejected (sender orderId principal leverage insuranceRate ts : Nat)
    (s : State)
    (hdup : claimedContains s.claimedOrders sender orderId = true)
    (hw : memberList s.whitelisted sender = true)
    (hb : memberList s.blacklisted sender = false)
    (hl : s.locked = false)
    (hp : s.paused = false) :
    submitClaim sender orderId principal leverage insuranceRate ts s =
      .error .DuplicateClaimError ∧
    isOkE (submitClaim sender orderId principal leverage insuranceRate ts s) = false := by
  have he : submitClaim sender orderId principal leverage insuranceRate ts s =
      .error .DuplicateClaimError := by
    unfold submitClaim
    rw [if_neg (by simp [hw]), if_neg (by simp [hb]), if_neg (by simp [hl]),
      if_neg (by simp [hp]), if_pos hdup]
  exact ⟨he, by rw [he]; rfl⟩

/-- Witness for C4: resubmitting order 77 for user 10 after c9s1 fails with
DuplicateClaimError. -/
theorem c4_duplicate_claim_rejected_witness :
    submitClaim 10 77 500 95 40 5 c9s1 = .error .DuplicateClaimError ∧
    isOkE (submitClaim 10 77 500 95 40 5 c9s1) = false :=
  c4_duplicate_claim_rejected 10 77 500 95 40 5 c9s1 (by decide) (by decide) (by decide)
    (by decide) (by decide)

/-- C5: while the addressed record has verified = false, executePayout
fails with NotVerifiedError and never succeeds, leaving ledger and record
untouched (a revert returns the caller to the prior state). -/
theorem c5_unverified_payout_rejected (sender user orderId : Nat) (t : Bool) (s : State)
    (hm : memberList s.multiSigWallets sender = true)
    (hl : s.locked = false)
    (hp : s.paused = false)
    (hw : memberList s.whitelisted user = true)
    (hb : memberList s.blacklisted user = false)
    (hc : claimedContains s.claimedOrders user orderId = true)
    (hlen : recordIndex s user orderId < (userRecords s user).length)
    (hoid : (theRecord s user orderId).orderId = orderId)
    (hv : (theRecord s user orderId).verified = false) :
    executePayout sender user orderId t s = .error .NotVerifiedError ∧
    isOkE (executePayout sender user orderId t s) = false := by
  have he : executePayout sender user orderId t s = .error .NotVerifiedError := by
    unfold executePayout
    rw [if_neg (by simp [hm]), if_neg (by simp [hl]), if_neg (by simp [hp]),
      if_neg (by simp [hw]), if_neg (by simp [hb]), if_neg (by simp [hc]),
      if_neg (Nat.not_le.mpr hlen), if_neg (by simp [hoid]), if_pos hv]
  exact ⟨he, by rw [he]; rfl⟩

/-- Witness for C5: settling the submitted-but-unverified claim (10, 77)
in c9s1 fails with NotVerifiedError. -/
theorem c5_unverified_payout_rejected_witness :
    executePayout 2 10 77 true c9s1 = .error .NotVerifiedError ∧
    isOkE (executePayout 2 10 77 true c9s1) = false :=
  c5_unverified_payout_rejected 2 10 77 true c9s1 (by decide) (by decide) (by decide)
    (by decide) (by decide) (by decide) (by decide) (by decide) (by decide)

/-- C6: while the exclusive reentrancy flag is held, a nested executePayout
by a multisig caller fails immediately with ReentrancyError (never blocking
and never succeeding, hence no ledger mutation), and a completed
executePayout hands the flag back exactly as it found it; an aborted call
restores it through the rollback this embedding builds in. -/
theorem c6_reentrancy_rejected (sender user orderId : Nat) (t t2 : Bool) (s u u1 : State)
    (hlock : s.locked = true)
    (hm : memberList s.multiSigWallets sender = true)
    (hrun : executePayout sender user orderId t2 u = .ok u1) :
    executePayout sender user orderId t s = .error .ReentrancyError ∧
    isOkE (executePayout sender user orderId t s) = false ∧
    u1.locked = u.locked := by
  have he : executePayout sender user orderId t s = .error .ReentrancyError := by
    unfold executePayout
    rw [if_neg (by simp [hm]), if_pos hlock]
  exact ⟨he, by rw [he]; rfl, (exec_ok_balance sender user orderId t2 u u1 hrun).2.2⟩

/-- Witness for C6: with the flag held over c9s2 the settlement of (10, 77)
fails with ReentrancyError, while the completed settlement c9s2 to c1s1
leaves the flag as it was. -/
theorem c6_reentrancy_rejected_witness :
    executePayout 2 10 77 true c6locked = .error .ReentrancyError ∧
    isOkE (executePayout 2 10 77 true c6locked) = false ∧
    c1s1.locked = c9s2.locked :=
  c6_reentrancy_rejected 2 10 77 true true c6locked c9s2 c1s1 (by decide) (by decide)
    (by decide)

/-- C7: while paused, submitClaim and executePayout both fail with
PausedError (for callers that pass the authorization and reentrancy gates
that the source checks first), and the read-only queries are insensitive
to the pause flag. -/
theorem c7_paused_behavior (senderS orderIdS principal leverage insuranceRate ts
      senderE user orderIdE : Nat) (t b : Bool) (s : State)
    (hp : s.paused = true)
    (hw : memberList s.whitelisted senderS = true)
    (hb : memberList s.blacklisted senderS = false)
    (hl : s.locked = false)
    (hm : memberList s.multiSigWallets senderE = true) :
    submitClaim senderS orderIdS principal leverage insuranceRate ts s =
      .error .PausedError ∧
    executePayout senderE user orderIdE t s = .error .PausedError ∧
    getUserPayoutsQ { s with paused := b } user = getUserPayoutsQ s user ∧
    isOrderClaimedQ { s with paused := b } user orderIdE =
      isOrderClaimedQ s user orderIdE ∧
    ({ s with paused := b } : State).contractBalance = s.contractBalance ∧
    ({ s with paused := b } : State).liquidationThreshold = s.liquidationThreshold ∧
    ({ s with paused := b } : State).feePercentage = s.feePercentage := by
  refine ⟨?_, ?_, rfl, rfl, rfl, rfl, rfl⟩
  · unfold submitClaim
    rw [if_neg (by simp [hw]), if_neg (by simp [hb]), if_neg (by simp [hl]), if_pos hp]
  · unfold executePayout
    rw [if_neg (by simp [hm]), if_neg (by simp [hl]), if_pos hp]

/-- Witness for C7: over the paused state c7paused both mutating entry
points fail with PausedError and the queries ignore the flag. -/
theorem c7_paused_behavior_witness :
    submitClaim 10 300 500 95 40 5 c7paused = .error .PausedError ∧
    executePayout 2 10 77 true c7paused = .error .PausedError ∧
    getUserPayoutsQ { c7paused with paused := false } 10 = getUserPayoutsQ c7paused 10 ∧
    isOrderClaimedQ { c7paused with paused := false } 10 77 =
      isOrderClaimedQ c7paused 10 77 ∧
    ({ c7paused with paused := false } : State).contractBalance =
      c7paused.contractBalance ∧
    ({ c7paused with paused := false } : State).liquidationThreshold =
      c7paused.liquidationThreshold ∧
    ({ c7paused with paused := false } : State).feePercentage =
      c7paused.feePercentage :=
  c7_paused_behavior 10 300 500 95 40 5 2 10 77 true false c7paused (by decide)
    (by decide) (by decide) (by decide) (by decide)

/-- C8 amended: once the earlier gates pass, executePayout fails with
InsufficientBalanceError exactly when the gross stored payout amount
(pre-fee) exceeds the ledger balance; the check is on the gross amount,
not on the net transfer amount. -/
theorem c8_amended_gross_balance_check (sender user orderId : Nat) (t : Bool) (s : State)
    (hm : memberList s.multiSigWallets sender = true)
    (hl : s.locked = false)
    (hp : s.paused = false)
    (hw : memberList s.whitelisted user = true)
    (hb : memberList s.blacklisted user = false)
    (hc : claimedContains s.claimedOrders user orderId = true)
    (hlen : recordIndex s user orderId < (userRecords s user).length)
    (hoid : (theRecord s user orderId).orderId = orderId)
    (hv : (theRecord s user orderId).verified = true)
    (hcap : 0 < (theRecord s user orderId).amount) :
    executePayout sender user orderId t s = .error .InsufficientBalanceError ↔
      s.contractBalance < (theRecord s user orderId).amount := by
  unfold executePayout
  rw [if_neg (by simp [hm]), if_neg (by simp [hl]), if_neg (by simp [hp]),
    if_neg (by simp [hw]), if_neg (by simp [hb]), if_neg (by simp [hc]),
    if_neg (Nat.not_le.mpr hlen), if_neg (by simp [hoid]),
    if_neg (by simp [hv]), if_neg (Nat.pos_iff_ne_zero.mp hcap)]
  by_cases hbal : s.contractBalance < (theRecord s user orderId).amount
  · rw [if_pos hbal]
    simp [hbal]
  · rw [if_neg hbal]
    apply iff_of_false ?_ hbal
    by_cases o1 : UINT256 ≤ (theRecord s user orderId).amount * s.feePercentage
    · rw [if_pos o1]; simp
    rw [if_neg o1]
    by_cases o2 : (theRecord s user orderId).amount <
        (theRecord s user orderId).amount * s.feePercentage / 100
    · rw [if_pos o2]; simp
    rw [if_neg o2]
    by_cases o3 : t = false
    · rw [if_pos o3]; simp
    rw [if_neg o3]; simp

/-- Witness for C8 amended: at c8s the equivalence is realised with both
sides true (gross 100 exceeds balance 97). -/
theorem c8_amended_gross_balance_check_witness :
    executePayout 2 10 77 true c8s = .error .InsufficientBalanceError ↔
      c8s.contractBalance < (theRecord c8s 10 77).amount :=
  c8_amended_gross_balance_check 2 10 77 true c8s (by decide) (by decide) (by decide)
    (by decide) (by decide) (by decide) (by decide) (by decide) (by decide) (by decide)

/-- C10 amended: every successful updateVerification overwrites the stored
amount with currentAmount * insuranceRate / 100 and the verified flag with
the supplied boolean, whatever that boolean is (so a call with verified
false still rescales); two consecutive successful calls with the same rate
leave the amount at currentAmount * rate / 100 * rate / 100 with a
truncating division applied at each call, which can differ from
currentAmount * rate ^ 2 / 10000. -/
theorem c10_amended_compound_rescale (sender user orderId principal leverage insuranceRate : Nat)
    (v v2 : Bool) (s s1 s2 : State)
    (h1 : updateVerification sender user orderId principal leverage insuranceRate v s = .ok s1)
    (h2 : updateVerification sender user orderId principal leverage insuranceRate v2 s1 = .ok s2) :
    (theRecord s1 user orderId).amount =
      (theRecord s user orderId).amount * insuranceRate / 100 ∧
    (theRecord s1 user orderId).verified = v ∧
    (theRecord s2 user orderId).amount =
      (theRecord s user orderId).amount * insuranceRate / 100 * insuranceRate / 100 := by
  obtain ⟨a1, b1⟩ :=
    upd_ok_rescale sender user orderId principal leverage insuranceRate v s s1 h1
  obtain ⟨a2, b2⟩ :=
    upd_ok_rescale sender user orderId principal leverage insuranceRate v2 s1 s2 h2
  exact ⟨a1, b1, by rw [a2, a1]⟩

/-- Witness for C10 amended: two rate-99 re-verifications with verified
false on the amount-2 record (10, 88), rescaling 2 to 1 to 0. -/
theorem c10_amended_compound_rescale_witness :
    (theRecord c10w1 10 88).amount = (theRecord c10s0 10 88).amount * 99 / 100 ∧
    (theRecord c10w1 10 88).verified = false ∧
    (theRecord c10w2 10 88).amount =
      (theRecord c10s0 10 88).amount * 99 / 100 * 99 / 100 :=
  c10_amended_compound_rescale 2 10 88 4000 85 99 false false c10s0 c10w1 c10w2
    (by decide) (by decide)

/-- C9: on the concrete inputs principal 1000, leverage 90, threshold 80,
insurance rate 50 the engine stores estimatedPayout 50; verifying with rate
50 stores payoutAmount 25; settling with fee percentage 5 computes fee 1
(truncated), transfer amount 24, and the ledger drops by exactly 24. -/
theorem c9_worked_example :
    submitClaim 10 77 1000 90 50 0 demoState = .ok c9s1 ∧
    (theRecord c9s1 10 77).amount = 50 ∧
    updateVerification 2 10 77 1000 90 50 true c9s1 = .ok c9s2 ∧
    (theRecord c9s2 10 77).amount = 25 ∧
    (theRecord c9s2 10 77).verified = true ∧
    executePayout 2 10 77 true c9s2 = .ok c9s3 ∧
    (theRecord c9s2 10 77).amount * c9s2.feePercentage / 100 = 1 ∧
    netAmount c9s2 10 77 = 24 ∧
    c9s3.contractBalance = 976 ∧
    demoState.contractBalance - c9s3.contractBalance = 24 := by
  decide

/-- C1: the code marks nothing as paid, so a second executePayout for the
same (owner, orderId) succeeds again and debits the ledger a second time,
instead of failing with AlreadyPaidError as the specification requires. -/
theorem c1_second_payout_succeeds :
    executePayout 2 10 77 true c9s2 = .ok c1s1 ∧
    c1s1.contractBalance = 976 ∧
    executePayout 2 10 77 true c1s1 = .ok c1s2 ∧
    executePayout 2 10 77 true c1s1 ≠ .error .AlreadyPaidError ∧
    c1s2.contractBalance = 952 := by
  decide

/-- C8 counterexample: the balance check compares the gross stored amount,
not the net transfer amount. Here the net transfer amount 95 fits the
ledger balance 97, yet the call fails with InsufficientBalanceError
because the gross amount 100 exceeds the balance. -/
theorem c8_counterexample :
    netAmount c8s 10 77 = 95 ∧
    netAmount c8s 10 77 ≤ c8s.contractBalance ∧
    executePayout 2 10 77 true c8s = .error .InsufficientBalanceError := by
  decide

/-- C10 counterexample: two consecutive updateVerification calls with rate
99 on a stored amount of 2 leave the amount at 0, while the claimed
closed form 2 * 99 * 99 / 10000 equals 1 — double truncation makes the
compounded value differ from amount * rate ^ 2 / 10000. -/
theorem c10_counterexample :
    (theRecord c10s0 10 88).amount = 2 ∧
    updateVerification 2 10 88 4000 85 99 true c10s0 = .ok c10s1 ∧
    updateVerification 2 10 88 4000 85 99 true c10s1 = .ok c10s2 ∧
    (theRecord c10s2 10 88).amount = 0 ∧
    (theRecord c10s0 10 88).amount * 99 * 99 / 10000 = 1 := by
  decide

end LeverageGuard
